import Mathlib

/-
Shallow embedding of the Confluence MCP server (src/src/index.ts).

The server registers three tools (execute_cql_search, get_page_content,
update_page_content), dispatches tool-invocation requests by name, coerces
arguments with the JavaScript String() and Number() conversions, issues
HTTP calls against the configured Confluence base URL, and wraps every
handler result as a single pretty-printed text content item.

Remote interaction is modelled by an oracle of type HttpRequest → HttpResult;
every handler returns both its computed value and the list of HTTP requests
it issued, so that claims about which requests are (or are not) sent are
directly statable.  JavaScript numbers are modelled as integers (plus NaN
where the Number() coercion can produce it); no claim depends on
floating-point behaviour.
-/

namespace ConfluenceMcp

/-- JSON values, as they occur in tool arguments, HTTP bodies and responses.
JavaScript "undefined" is represented by Option.none at use sites, never as
a JValue. -/
inductive JValue where
  | jnull
  | jbool (b : Bool)
  | jnum (n : Int)
  | jstr (s : String)
  | jarr (elems : List JValue)
  | jobj (fields : List (String × JValue))

/-- JavaScript numbers as produced by the Number() coercion: an integer or
NaN.  (The source only ever applies Number() to the limit argument.) -/
inductive JSNum where
  | num (n : Int)
  | nan

/-- Decimal rendering of a JS number; axios serialises a NaN query
parameter as the string NaN. -/
def JSNum.render : JSNum → String
  | .num n => toString n
  | .nan => "NaN"

mutual

/-- The JavaScript String() coercion on a defined value.  Arrays stringify
as their elements joined by commas (null elements render empty), objects as
the literal text between brackets below. -/
def jsStringVal : JValue → String
  | .jnull => "null"
  | .jbool b => if b then "true" else "false"
  | .jnum n => toString n
  | .jstr s => s
  | .jarr xs => String.intercalate "," (jsArrElems xs)
  | .jobj _ => "[object Object]"

/-- Array elements under String(): null renders as the empty string. -/
def jsArrElems : List JValue → List String
  | [] => []
  | .jnull :: rest => "" :: jsArrElems rest
  | x :: rest => jsStringVal x :: jsArrElems rest

end

/-- String() applied to a possibly-undefined value: String(undefined) is
the literal string undefined.  This is the coercion the dispatcher applies
to every argument lookup (index.ts lines 232, 252, 271-272). -/
def jsString : Option JValue → String
  | none => "undefined"
  | some v => jsStringVal v

/-- Number() on a string: trimmed-empty gives 0, an integer literal parses,
anything else is NaN.  (JS also parses floats and hex literals; numbers are
modelled as integers and no claim exercises those forms.) -/
def strToNum (s : String) : JSNum :=
  let t := s.trim
  if t = "" then .num 0
  else
    match t.toInt? with
    | some n => .num n
    | none => .nan

/-- The JavaScript Number() coercion on a defined value.  Arrays and
objects convert via their String() form. -/
def jsToNumber : JValue → JSNum
  | .jnull => .num 0
  | .jbool b => .num (if b then 1 else 0)
  | .jnum n => .num n
  | .jstr s => strToNum s
  | .jarr xs => strToNum (jsStringVal (.jarr xs))
  | .jobj fs => strToNum (jsStringVal (.jobj fs))

/-- JavaScript truthiness of a defined value. -/
def jTruthy : JValue → Bool
  | .jnull => false
  | .jbool b => b
  | .jnum n => n != 0
  | .jstr s => s != ""
  | .jarr _ => true
  | .jobj _ => true

/-- Truthiness of a possibly-undefined value (undefined is falsy). -/
def jTruthyOpt : Option JValue → Bool
  | none => false
  | some v => jTruthy v

/-- Property read v.k: on an object the last binding of the key wins (as
after JSON.parse); on any non-object it is undefined.  (In JS a property
read on null throws; the one place the source can do that is modelled
explicitly in updatePageContent.) -/
def jGet (v : JValue) (k : String) : Option JValue :=
  match v with
  | .jobj fs => fs.foldl (fun acc p => if p.1 = k then some p.2 else acc) none
  | _ => none

/-- JS evaluation of v + 1, as in currentPage.version.number + 1
(index.ts line 186): numbers increment, strings (and arrays and objects,
via their string form) concatenate the character 1. -/
def jsPlus1 : JValue → JValue
  | .jnum n => .jnum (n + 1)
  | .jnull => .jnum 1
  | .jbool b => .jnum (if b then 2 else 1)
  | .jstr s => .jstr (s ++ "1")
  | .jarr xs => .jstr (jsStringVal (.jarr xs) ++ "1")
  | .jobj fs => .jstr (jsStringVal (.jobj fs) ++ "1")

/-- Object construction where a field whose value is undefined is dropped,
exactly as JSON.stringify drops undefined properties when the update
payload is serialised onto the wire. -/
def objFields (fs : List (String × Option JValue)) : List (String × JValue) :=
  fs.filterMap fun p => p.2.map fun v => (p.1, v)

/-- Lowercase hex digit. -/
def hexDigit (n : Nat) : Char :=
  if n < 10 then Char.ofNat (48 + n) else Char.ofNat (87 + n)

/-- JSON string escaping as performed by JSON.stringify. -/
def jsonEscapeChar (c : Char) : String :=
  if c = '"' then "\\\""
  else if c = '\\' then "\\\\"
  else if c = '\x08' then "\\b"
  else if c = '\x09' then "\\t"
  else if c = '\x0a' then "\\n"
  else if c = '\x0c' then "\\f"
  else if c = '\x0d' then "\\r"
  else if c.toNat < 32 then
    "\\u00" ++ String.singleton (hexDigit (c.toNat / 16)) ++
      String.singleton (hexDigit (c.toNat % 16))
  else String.singleton c

/-- A JSON-quoted string literal. -/
def jsonQuote (s : String) : String :=
  "\"" ++ String.join (s.toList.map jsonEscapeChar) ++ "\""

mutual

/-- JSON.stringify(v, null, 2) at surrounding indentation ind. -/
def jsonStringifyAux (ind : String) : JValue → String
  | .jnull => "null"
  | .jbool b => if b then "true" else "false"
  | .jnum n => toString n
  | .jstr s => jsonQuote s
  | .jarr [] => "[]"
  | .jarr (x :: xs) =>
      "[\n" ++ String.intercalate ",\n" (jsonStringifyElems (ind ++ "  ") (x :: xs)) ++
        "\n" ++ ind ++ "]"
  | .jobj [] => "\x7b\x7d"
  | .jobj (f :: fs) =>
      "\x7b\n" ++ String.intercalate ",\n" (jsonStringifyFields (ind ++ "  ") (f :: fs)) ++
        "\n" ++ ind ++ "\x7d"

/-- Array elements of the pretty printer, each on its own indented line. -/
def jsonStringifyElems (ind : String) : List JValue → List String
  | [] => []
  | x :: xs => (ind ++ jsonStringifyAux ind x) :: jsonStringifyElems ind xs

/-- Object fields of the pretty printer, each on its own indented line. -/
def jsonStringifyFields (ind : String) : List (String × JValue) → List String
  | [] => []
  | (k, v) :: fs => (ind ++ jsonQuote k ++ ": " ++ jsonStringifyAux ind v) :: jsonStringifyFields ind fs

end

/-- JSON.stringify(v, null, 2), the serialisation the dispatcher applies to
every handler result (index.ts lines 245, 264, 290). -/
def jsonStringify (v : JValue) : String :=
  jsonStringifyAux "" v

/-- An HTTP request as issued through axios: method, full URL, the query
parameter object (already rendered to wire strings) and an optional JSON
body.  Authorization and content-type headers are attached uniformly by
getAuthHeaders and carry no per-request information, so they are not
modelled. -/
structure HttpRequest where
  method : String
  url : String
  params : List (String × String)
  body : Option JValue

/-- What axios throws on failure: a response outside the 2xx range (error
dot response present, carrying the response body) or a network fault
(message only). -/
inductive AxiosError where
  | httpError (respBody : JValue)
  | networkError (message : String)

/-- Outcome of one HTTP request. -/
inductive HttpResult where
  | success (data : JValue)
  | failure (e : AxiosError)

/-- The remote Confluence instance, as an oracle from requests to
outcomes. -/
abbrev Remote := HttpRequest → HttpResult

/-- The catch-clause normalisation shared by every handler (index.ts lines
122-126, 144-148, 203-207): error.response ? error.response.data :
error.message. -/
def errVal : AxiosError → JValue
  | .httpError b => b
  | .networkError m => .jstr m

/-- The error object the catch clauses return. -/
def errorPayload (e : AxiosError) : JValue :=
  .jobj [("error", errVal e)]

/-- GET content/search request built by executeCQL (index.ts lines
105-119): params are the cql string and the limit. -/
def cqlSearchRequest (baseUrl cql : String) (limit : JSNum) : HttpRequest :=
  { method := "GET"
    url := baseUrl ++ "/wiki/rest/api/content/search"
    params := [("cql", cql), ("limit", limit.render)]
    body := none }

/-- executeCQL (index.ts lines 105-127): issue the search GET; on success
return response.data, on failure the normalised error object.  The second
component lists the HTTP requests issued. -/
def executeCQL (baseUrl : String) (remote : Remote) (cql : String) (limit : JSNum) :
    JValue × List HttpRequest :=
  let req := cqlSearchRequest baseUrl cql limit
  match remote req with
  | .success d => (d, [req])
  | .failure e => (errorPayload e, [req])

/-- GET content/id request built by getPageContent (index.ts lines
136-141). -/
def getPageRequest (baseUrl pageId : String) : HttpRequest :=
  { method := "GET"
    url := baseUrl ++ "/wiki/rest/api/content/" ++ pageId ++ "?expand=body.storage,version"
    params := []
    body := none }

/-- getPageContent (index.ts lines 134-149). -/
def getPageContent (baseUrl : String) (remote : Remote) (pageId : String) :
    JValue × List HttpRequest :=
  let req := getPageRequest baseUrl pageId
  match remote req with
  | .success d => (d, [req])
  | .failure e => (errorPayload e, [req])

/-- PUT content/id request built by updatePageContent (index.ts lines
191-200). -/
def putPageRequest (baseUrl pageId : String) (payload : JValue) : HttpRequest :=
  { method := "PUT"
    url := baseUrl ++ "/wiki/rest/api/content/" ++ pageId
    params := []
    body := some payload }

/-- V8 message of the TypeError thrown by reading a property of null. -/
def nullReadMsg (prop : String) : String :=
  "Cannot read properties of null (reading \x27" ++ prop ++ "\x27)"

/-- V8 message of the TypeError thrown by reading a property of
undefined. -/
def undefReadMsg (prop : String) : String :=
  "Cannot read properties of undefined (reading \x27" ++ prop ++ "\x27)"

/-- The body.storage wrapper of the update payload (index.ts lines
179-184). -/
def storageBody (content : String) : JValue :=
  .jobj [("storage", .jobj [("value", .jstr content), ("representation", .jstr "storage")])]

/-- The version.number value of the update payload:
currentPage.version.number + 1.  A missing number property gives
undefined + 1 = NaN, which JSON.stringify serialises as null in the wire
body. -/
def nextVersion (ver : JValue) : JValue :=
  match jGet ver "number" with
  | some v => jsPlus1 v
  | none => .jnull

/-- The update payload of index.ts lines 174-188, already in wire form
(fields whose value is undefined are dropped by serialisation).  The title
field is title || currentPage.title: a provided non-empty title wins, an
absent or empty one falls back to the fetched title.  ver is the value of
currentPage.version, known to be defined and non-null at the call site. -/
def updatePayload (pageId content : String) (title : Option String) (currentPage ver : JValue) :
    JValue :=
  .jobj (objFields
    [("id", some (.jstr pageId)),
     ("type", jGet currentPage "type"),
     ("title",
       match title with
       | some t => if t = "" then jGet currentPage "title" else some (.jstr t)
       | none => jGet currentPage "title"),
     ("space", jGet currentPage "space"),
     ("body", some (storageBody content)),
     ("version", some (.jobj [("number", nextVersion ver)]))])

/-- Whether a value is the JSON null (property reads on it throw). -/
def isNull : JValue → Bool
  | .jnull => true
  | _ => false

/-- updatePageContent (index.ts lines 158-208): fetch the current page; if
the fetch came back as an error object, abort with a prefixed message and
issue no PUT; otherwise build the version-incremented payload and PUT it.
Property reads on null (and the number read on a missing version) throw a
TypeError that the surrounding try/catch turns into an error object, again
with no PUT issued. -/
def updatePageContent (baseUrl : String) (remote : Remote) (pageId content : String)
    (title : Option String) : JValue × List HttpRequest :=
  let fetched := getPageContent baseUrl remote pageId
  let currentPage := fetched.1
  if isNull currentPage then
    (.jobj [("error", .jstr (nullReadMsg "error"))], fetched.2)
  else if jTruthyOpt (jGet currentPage "error") then
    (.jobj [("error",
       .jstr ("Failed to get current page: " ++ jsString (jGet currentPage "error")))],
     fetched.2)
  else
    match jGet currentPage "version" with
    | none =>
        (.jobj [("error", .jstr (undefReadMsg "number"))], fetched.2)
    | some JValue.jnull =>
        (.jobj [("error", .jstr (nullReadMsg "number"))], fetched.2)
    | some ver =>
        let payload := updatePayload pageId content title currentPage ver
        let req := putPageRequest baseUrl pageId payload
        match remote req with
        | .success d => (d, fetched.2 ++ [req])
        | .failure e => (errorPayload e, fetched.2 ++ [req])

/-- A tool descriptor as returned by the list-tools handler. -/
structure ToolDescriptor where
  name : String
  description : String
  inputSchema : JValue

/-- The static tool registry returned by the ListToolsRequestSchema handler
(index.ts lines 37-97), transcribed field for field. -/
def listTools : List ToolDescriptor :=
  [{ name := "execute_cql_search"
     description := "Execute a CQL query on Confluence to search pages"
     inputSchema := .jobj
       [("type", .jstr "object"),
        ("properties", .jobj
          [("cql", .jobj
             [("type", .jstr "string"),
              ("description", .jstr "CQL query string")]),
           ("limit", .jobj
             [("type", .jstr "integer"),
              ("description", .jstr "Number of results to return"),
              ("default", .jnum 10)])]),
        ("required", .jarr [.jstr "cql"])] },
   { name := "get_page_content"
     description := "Get the content of a Confluence page"
     inputSchema := .jobj
       [("type", .jstr "object"),
        ("properties", .jobj
          [("pageId", .jobj
             [("type", .jstr "string"),
              ("description", .jstr "Confluence Page ID")])]),
        ("required", .jarr [.jstr "pageId"])] },
   { name := "update_page_content"
     description := "Update the content of a Confluence page"
     inputSchema := .jobj
       [("type", .jstr "object"),
        ("properties", .jobj
          [("pageId", .jobj
             [("type", .jstr "string"),
              ("description", .jstr "Confluence Page ID")]),
           ("content", .jobj
             [("type", .jstr "string"),
              ("description", .jstr "HTML content to update the page with")]),
           ("title", .jobj
             [("type", .jstr "string"),
              ("description", .jstr "Page title (optional, if you want to change it)")])]),
        ("required", .jarr [.jstr "pageId", .jstr "content"])] }]

/-- An incoming tool-invocation request: request.params.name and the
optional request.params.arguments object. -/
structure ToolRequest where
  name : String
  arguments : Option (List (String × JValue))

/-- Optional-chained argument lookup request.params.arguments?.k: undefined
when the arguments object is absent or lacks the key; later bindings of a
repeated key win, as in a JS object literal. -/
def argGet (r : ToolRequest) (k : String) : Option JValue :=
  match r.arguments with
  | none => none
  | some fs => fs.foldl (fun acc p => if p.1 = k then some p.2 else acc) none

/-- One element of the response content array. -/
structure TextContent where
  type : String
  text : String

/-- The response envelope every successful tool call returns. -/
structure ToolResponse where
  content : List TextContent

/-- Wrap a handler result as the single pretty-printed text content item
(index.ts lines 241-248 and the analogous blocks). -/
def mkTextResponse (v : JValue) : ToolResponse :=
  { content := [{ type := "text", text := jsonStringify v }] }

/-- Number(request.params.arguments?.limit ?? 10): absent or null gives
Number(10) = 10, anything else goes through the Number() coercion
(index.ts line 233). -/
def limitArg (v : Option JValue) : JSNum :=
  match v with
  | none => .num 10
  | some .jnull => .num 10
  | some w => jsToNumber w

/-- Outcome of dispatching one tool call: a protocol-level result (ok with
the response envelope, or error for a thrown request-level failure) paired
with the list of HTTP requests issued while handling it. -/
abbrev DispatchResult := Except String ToolResponse × List HttpRequest

/-- The CallToolRequestSchema handler (index.ts lines 229-299): switch on
request.params.name; each case coerces its arguments with String(), throws
a validation error on an empty coerced string, runs its remote function and
wraps the result; an unrecognised name throws Unknown tool. -/
def handleCallTool (baseUrl : String) (remote : Remote) (request : ToolRequest) :
    DispatchResult :=
  if request.name = "execute_cql_search" then
    let cql := jsString (argGet request "cql")
    let _limit := limitArg (argGet request "limit")
    if cql = "" then (.error "CQL query is required", [])
    else
      let r := executeCQL baseUrl remote cql _limit
      (.ok (mkTextResponse r.1), r.2)
  else if request.name = "get_page_content" then
    let pageId := jsString (argGet request "pageId")
    if pageId = "" then (.error "Page ID is required", [])
    else
      let r := getPageContent baseUrl remote pageId
      (.ok (mkTextResponse r.1), r.2)
  else if request.name = "update_page_content" then
    let pageId := jsString (argGet request "pageId")
    let content := jsString (argGet request "content")
    let title :=
      if jTruthyOpt (argGet request "title") then some (jsString (argGet request "title"))
      else none
    if pageId = "" then (.error "Page ID is required", [])
    else if content = "" then (.error "Content is required", [])
    else
      let r := updatePageContent baseUrl remote pageId content title
      (.ok (mkTextResponse r.1), r.2)
  else
    (.error "Unknown tool", [])

/-- A page object of the shape the update flow expects from the fetch:
type, title, space and a version object with a numeric version. -/
def mkPage (ty title space : JValue) (n : Int) : JValue :=
  .jobj [("type", ty), ("title", title), ("space", space),
         ("version", .jobj [("number", .jnum n)])]

/-- A concrete execute_cql_search request with cql type=page and limit 5,
used to instantiate the general theorems. -/
def cqlFixtureRequest : ToolRequest :=
  { name := "execute_cql_search"
    arguments := some [("cql", .jstr "type=page"), ("limit", .jnum 5)] }

/-- Dispatch on a name that matches none of the three switch cases falls
through to the default case. -/
theorem handleCallTool_unknown (baseUrl : String) (remote : Remote) (request : ToolRequest)
    (h1 : request.name ≠ "execute_cql_search") (h2 : request.name ≠ "get_page_content")
    (h3 : request.name ≠ "update_page_content") :
    handleCallTool baseUrl remote request = (.error "Unknown tool", []) := by
  simp [handleCallTool, h1, h2, h3]

/-- The registry names, computed. -/
theorem listTools_names :
    listTools.map ToolDescriptor.name
      = ["execute_cql_search", "get_page_content", "update_page_content"] := rfl

/-- C1: the claim says every tool invoked with a required argument absent
throws a validation failure and issues no remote call.  The code instead
coerces the missing argument with String(), obtaining the truthy string
undefined, and issues the remote call.  Evaluated at the failing inputs:
each of the three tools invoked with an empty arguments object still issues
its HTTP request (with undefined interpolated where the argument belongs)
and succeeds at the protocol level. -/
theorem claim_C1_missing_required_arg_still_calls_remote :
    (handleCallTool "u" (fun _ => .success .jnull)
        { name := "execute_cql_search", arguments := some [] }
      = (.ok (mkTextResponse .jnull), [cqlSearchRequest "u" "undefined" (.num 10)]))
    ∧ (handleCallTool "u" (fun _ => .success .jnull)
        { name := "get_page_content", arguments := some [] }
      = (.ok (mkTextResponse .jnull), [getPageRequest "u" "undefined"]))
    ∧ ((handleCallTool "u" (fun _ => .success (mkPage (.jstr "page") (.jstr "T") (.jobj []) 3))
        { name := "update_page_content", arguments := some [] }).2
      = [getPageRequest "u" "undefined",
         putPageRequest "u" "undefined" (.jobj
           [("id", .jstr "undefined"), ("type", .jstr "page"), ("title", .jstr "T"),
            ("space", .jobj []), ("body", storageBody "undefined"),
            ("version", .jobj [("number", .jnum 4)])])]) :=
  ⟨rfl, rfl, rfl⟩

/-- C9: a required argument that is entirely absent coerces to the
non-empty literal string undefined, the emptiness check does not fire, and
the remote call proceeds with undefined as the value; only an explicitly
empty string argument triggers the validation failure.  Shown for cql on
execute_cql_search, pageId on get_page_content and content on
update_page_content, plus the empty-string failure case. -/
theorem claim_C9_absent_arg_coerces_to_undefined (baseUrl : String) (d ty tl sp : JValue)
    (n : Int) :
    jsString none = "undefined"
    ∧ (handleCallTool baseUrl (fun _ => .success d)
         { name := "execute_cql_search", arguments := some [] }
       = (.ok (mkTextResponse d), [cqlSearchRequest baseUrl "undefined" (.num 10)]))
    ∧ (handleCallTool baseUrl (fun _ => .success d)
         { name := "get_page_content", arguments := none }
       = (.ok (mkTextResponse d), [getPageRequest baseUrl "undefined"]))
    ∧ ((handleCallTool baseUrl (fun _ => .success (mkPage ty tl sp n))
         { name := "update_page_content", arguments := some [("pageId", .jstr "p")] }).2
       = [getPageRequest baseUrl "p",
          putPageRequest baseUrl "p" (.jobj
            [("id", .jstr "p"), ("type", ty), ("title", tl), ("space", sp),
             ("body", storageBody "undefined"),
             ("version", .jobj [("number", .jnum (n + 1))])])])
    ∧ (handleCallTool baseUrl (fun _ => .success d)
         { name := "execute_cql_search", arguments := some [("cql", .jstr "")] }
       = (.error "CQL query is required", [])) :=
  ⟨rfl, rfl, rfl, rfl, rfl⟩

/-- C6: a tool-invocation request whose name matches no registered tool
fails at the request level with the Unknown tool error, issuing no HTTP
request. -/
theorem claim_C6_unknown_tool_fails_request (baseUrl : String) (remote : Remote)
    (request : ToolRequest) (h : request.name ∉ listTools.map ToolDescriptor.name) :
    handleCallTool baseUrl remote request = (.error "Unknown tool", []) := by
  rw [listTools_names] at h
  simp only [List.mem_cons, List.not_mem_nil, or_false, not_or] at h
  exact handleCallTool_unknown baseUrl remote request h.1 h.2.1 h.2.2

/-- Witness for C6 at the concrete name execute_jql. -/
theorem claim_C6_unknown_tool_fails_request_witness :
    "execute_jql" ∉ listTools.map ToolDescriptor.name
    ∧ handleCallTool "u" (fun _ => .success .jnull)
        { name := "execute_jql", arguments := none }
      = (.error "Unknown tool", []) :=
  ⟨by decide,
   claim_C6_unknown_tool_fails_request "u" (fun _ => .success .jnull)
     { name := "execute_jql", arguments := none } (by decide)⟩

/-- C3 counterexample: the claim lists execute_jql (and further Jira-style
tools) among the handlers exposed by the registry and dispatcher; execute_jql
is not in the registry, and dispatching it fails with Unknown tool. -/
theorem claim_C3_counterexample :
    "execute_jql" ∉ listTools.map ToolDescriptor.name
    ∧ handleCallTool "u" (fun _ => .success .jnull)
        { name := "execute_jql", arguments := some [("jql", .jstr "x")] }
      = (.error "Unknown tool", []) :=
  ⟨by decide, rfl⟩

/-- C3 amended: the registry and dispatcher expose exactly the three
Confluence tools execute_cql_search, get_page_content and
update_page_content; every name outside the registry dispatches to the
Unknown tool failure, and each registered name dispatches to its own
handler, never to the Unknown tool failure. -/
theorem claim_C3_amended_exactly_three_tools (baseUrl : String) (remote : Remote)
    (request : ToolRequest) (h : request.name ∉ listTools.map ToolDescriptor.name) :
    listTools.map ToolDescriptor.name
        = ["execute_cql_search", "get_page_content", "update_page_content"]
    ∧ handleCallTool baseUrl remote request = (.error "Unknown tool", [])
    ∧ (∀ args : Option (List (String × JValue)),
        ∀ nm ∈ listTools.map ToolDescriptor.name,
          (handleCallTool baseUrl remote { name := nm, arguments := args }).1
            ≠ .error "Unknown tool") := by
  rw [listTools_names] at h
  simp only [List.mem_cons, List.not_mem_nil, or_false, not_or] at h
  refine ⟨listTools_names, handleCallTool_unknown baseUrl remote request h.1 h.2.1 h.2.2, ?_⟩
  intro args nm hnm
  rw [listTools_names] at hnm
  simp only [List.mem_cons, List.not_mem_nil, or_false] at hnm
  rcases hnm with hnm | hnm | hnm <;> subst hnm <;>
    simp only [handleCallTool] <;> norm_num <;> (repeat' split) <;> simp

/-- Witness for C3 amended at the concrete unregistered name create_ticket. -/
theorem claim_C3_amended_exactly_three_tools_witness :
    listTools.map ToolDescriptor.name
        = ["execute_cql_search", "get_page_content", "update_page_content"]
    ∧ handleCallTool "u" (fun _ => .success .jnull)
        { name := "create_ticket", arguments := none }
      = (.error "Unknown tool", [])
    ∧ (∀ args : Option (List (String × JValue)),
        ∀ nm ∈ listTools.map ToolDescriptor.name,
          (handleCallTool "u" (fun _ => .success .jnull)
            { name := nm, arguments := args }).1 ≠ .error "Unknown tool") :=
  claim_C3_amended_exactly_three_tools "u" (fun _ => .success .jnull)
    { name := "create_ticket", arguments := none } (by decide)

/-- C7 counterexample: the claim promises exactly one GET whenever the cql
argument is present; a present but empty cql string instead throws the
validation error and no request at all is issued. -/
theorem claim_C7_counterexample :
    handleCallTool "u" (fun _ => .success .jnull)
      { name := "execute_cql_search", arguments := some [("cql", .jstr "")] }
      = (.error "CQL query is required", []) := rfl

/-- C7 amended: whenever the String() coercion of the cql argument is
non-empty, exactly one GET is issued, its query parameters are exactly the
coerced cql string together with the limit (Number coercion of the limit
argument, 10 when the argument is absent), and on remote success the parsed
body is returned unchanged as the single pretty-printed text content
item. -/
theorem claim_C7_amended_single_get_with_params (baseUrl : String) (remote : Remote)
    (request : ToolRequest) (hname : request.name = "execute_cql_search")
    (hcql : jsString (argGet request "cql") ≠ "") :
    ((handleCallTool baseUrl remote request).2
        = [cqlSearchRequest baseUrl (jsString (argGet request "cql"))
            (limitArg (argGet request "limit"))])
    ∧ (argGet request "limit" = none → limitArg (argGet request "limit") = .num 10)
    ∧ (∀ l : Int, argGet request "limit" = some (.jnum l)
        → limitArg (argGet request "limit") = .num l)
    ∧ (∀ d : JValue,
        remote (cqlSearchRequest baseUrl (jsString (argGet request "cql"))
            (limitArg (argGet request "limit"))) = .success d
        → (handleCallTool baseUrl remote request).1 = .ok (mkTextResponse d)) := by
  refine ⟨?_, ?_, ?_, ?_⟩
  · rcases hr : remote (cqlSearchRequest baseUrl (jsString (argGet request "cql"))
        (limitArg (argGet request "limit"))) with d | e <;>
      simp [handleCallTool, hname, hcql, executeCQL, hr]
  · intro hl ; simp [limitArg, hl]
  · intro l hl ; simp [limitArg, hl, jsToNumber]
  · intro d hd
    simp [handleCallTool, hname, hcql, executeCQL, hd]

/-- Witness for C7 amended at the concrete fixture request with cql
type=page and limit 5. -/
theorem claim_C7_amended_single_get_with_params_witness :
    ((handleCallTool "u" (fun _ => .success (.jstr "ok")) cqlFixtureRequest).2
        = [cqlSearchRequest "u" (jsString (argGet cqlFixtureRequest "cql"))
            (limitArg (argGet cqlFixtureRequest "limit"))])
    ∧ (argGet cqlFixtureRequest "limit" = none
        → limitArg (argGet cqlFixtureRequest "limit") = .num 10)
    ∧ (∀ l : Int, argGet cqlFixtureRequest "limit" = some (.jnum l)
        → limitArg (argGet cqlFixtureRequest "limit") = .num l)
    ∧ (∀ d : JValue,
        (fun (_ : HttpRequest) => HttpResult.success (JValue.jstr "ok"))
            (cqlSearchRequest "u" (jsString (argGet cqlFixtureRequest "cql"))
              (limitArg (argGet cqlFixtureRequest "limit")))
          = .success d
        → (handleCallTool "u" (fun _ => .success (.jstr "ok")) cqlFixtureRequest).1
          = .ok (mkTextResponse d)) :=
  claim_C7_amended_single_get_with_params "u" (fun _ => .success (.jstr "ok"))
    cqlFixtureRequest rfl (by decide)

/-- C2: when the fetch preceding an update succeeds and yields a page with
version number n, the PUT body sent to the remote has version.number equal
to n plus one, carries the fetched type and space over unchanged, and uses
the fetched title when the title argument is omitted. -/
theorem claim_C2_update_put_body (baseUrl pid c : String) (ty tl sp : JValue) (n : Int)
    (remote : Remote)
    (hfetch : remote (getPageRequest baseUrl pid) = .success (mkPage ty tl sp n))
    (hp : pid ≠ "") (hc : c ≠ "") :
    (handleCallTool baseUrl remote
      { name := "update_page_content",
        arguments := some [("pageId", .jstr pid), ("content", .jstr c)] }).2
      = [getPageRequest baseUrl pid,
         putPageRequest baseUrl pid (.jobj
           [("id", .jstr pid), ("type", ty), ("title", tl), ("space", sp),
            ("body", storageBody c),
            ("version", .jobj [("number", .jnum (n + 1))])])] := by
  simp [handleCallTool, hp, hc, updatePageContent, getPageContent, hfetch, mkPage,
    isNull, jGet, jTruthyOpt, updatePayload, objFields, nextVersion, jsPlus1,
    storageBody, argGet, jsString, jsStringVal]
  split <;> rfl

/-- Witness for C2 at a concrete page of type page, title T and version 3:
the PUT body carries version 4. -/
theorem claim_C2_update_put_body_witness :
    (handleCallTool "u" (fun _ => .success (mkPage (.jstr "page") (.jstr "T") (.jobj []) 3))
      { name := "update_page_content",
        arguments := some [("pageId", .jstr "1"), ("content", .jstr "c")] }).2
      = [getPageRequest "u" "1",
         putPageRequest "u" "1" (.jobj
           [("id", .jstr "1"), ("type", .jstr "page"), ("title", .jstr "T"),
            ("space", .jobj []), ("body", storageBody "c"),
            ("version", .jobj [("number", .jnum 4)])])] :=
  claim_C2_update_put_body "u" "1" "c" (.jstr "page") (.jstr "T") (.jobj []) 3
    (fun _ => .success (mkPage (.jstr "page") (.jstr "T") (.jobj []) 3))
    rfl (by decide) (by decide)

/-- C4 counterexample: the claim says every failing remote call makes the
tool return the remote error body as the error value; a 404 on the fetch
step inside update_page_content instead returns a prefixed string in which
the body has collapsed to the text between brackets below, so the text
content differs from the serialisation the claim requires. -/
theorem claim_C4_counterexample :
    (handleCallTool "u" (fun _ => .failure (.httpError (.jobj [("statusCode", .jnum 404)])))
      { name := "update_page_content",
        arguments := some [("pageId", .jstr "p"), ("content", .jstr "c")] }
      = (.ok (mkTextResponse (.jobj [("error",
          .jstr "Failed to get current page: [object Object]")])),
         [getPageRequest "u" "p"]))
    ∧ jsonStringify (.jobj [("error", .jstr "Failed to get current page: [object Object]")])
        ≠ jsonStringify (.jobj [("error", .jobj [("statusCode", .jnum 404)])]) := by
  refine ⟨rfl, ?_⟩
  decide

/-- C4 amended: every failing remote call still succeeds at the protocol
level and returns an object with an error field as the text content; for
execute_cql_search, get_page_content and the PUT step of
update_page_content the error value is exactly the remote body (when a
response exists) or the raw exception message; for the fetch step of
update_page_content (with a truthy fetched error value) it is instead the
String() coercion of that value behind the prefix Failed to get current
page. -/
theorem claim_C4_amended_failures_returned_as_data (baseUrl cql pid c : String)
    (e : AxiosError) (hcql : cql ≠ "") (hp : pid ≠ "") (hc : c ≠ "") :
    (handleCallTool baseUrl (fun _ => .failure e)
        { name := "execute_cql_search", arguments := some [("cql", .jstr cql)] }
      = (.ok (mkTextResponse (.jobj [("error", errVal e)])),
         [cqlSearchRequest baseUrl cql (.num 10)]))
    ∧ (handleCallTool baseUrl (fun _ => .failure e)
        { name := "get_page_content", arguments := some [("pageId", .jstr pid)] }
      = (.ok (mkTextResponse (.jobj [("error", errVal e)])), [getPageRequest baseUrl pid]))
    ∧ (jTruthy (errVal e) = true →
        handleCallTool baseUrl (fun _ => .failure e)
          { name := "update_page_content",
            arguments := some [("pageId", .jstr pid), ("content", .jstr c)] }
        = (.ok (mkTextResponse (.jobj [("error",
             .jstr ("Failed to get current page: " ++ jsStringVal (errVal e)))])),
           [getPageRequest baseUrl pid]))
    ∧ (∀ ty tl sp : JValue, ∀ n : Int,
        handleCallTool baseUrl
          (fun r => if r.method = "PUT" then .failure e else .success (mkPage ty tl sp n))
          { name := "update_page_content",
            arguments := some [("pageId", .jstr pid), ("content", .jstr c)] }
        = (.ok (mkTextResponse (.jobj [("error", errVal e)])),
           [getPageRequest baseUrl pid,
            putPageRequest baseUrl pid (.jobj
              [("id", .jstr pid), ("type", ty), ("title", tl), ("space", sp),
               ("body", storageBody c),
               ("version", .jobj [("number", .jnum (n + 1))])])])) := by
  refine ⟨?_, ?_, ?_, ?_⟩
  · simp [handleCallTool, hcql, executeCQL, errorPayload, argGet, jsString, jsStringVal,
      limitArg]
  · simp [handleCallTool, hp, getPageContent, errorPayload, argGet, jsString, jsStringVal]
  · intro he
    simp [handleCallTool, hp, hc, updatePageContent, getPageContent, errorPayload,
      isNull, jGet, jTruthyOpt, he, jsString, argGet, jsStringVal]
  · intro ty tl sp n
    simp [handleCallTool, hp, hc, updatePageContent, getPageContent, errorPayload,
      isNull, jGet, jTruthyOpt, jsString, mkPage, updatePayload, objFields,
      nextVersion, jsPlus1, storageBody, argGet, jsStringVal, getPageRequest,
      putPageRequest]

/-- Witness for C4 amended at a network fault with message boom: the
execute_cql_search invocation succeeds at the protocol level and carries
the message as the error value. -/
theorem claim_C4_amended_failures_returned_as_data_witness :
    handleCallTool "u" (fun _ => .failure (.networkError "boom"))
        { name := "execute_cql_search", arguments := some [("cql", .jstr "q")] }
      = (.ok (mkTextResponse (.jobj [("error", errVal (.networkError "boom"))])),
         [cqlSearchRequest "u" "q" (.num 10)]) :=
  (claim_C4_amended_failures_returned_as_data "u" "q" "p" "c" (.networkError "boom")
    (by decide) (by decide) (by decide)).1

/-- C5 counterexample: the claim says the fetch error is surfaced directly
as the returned error value; for a network fault with message boom the
fetch returns the error value boom while update_page_content returns the
distinct prefixed string. -/
theorem claim_C5_counterexample :
    (updatePageContent "u" (fun _ => .failure (.networkError "boom")) "p" "c" none
      = (.jobj [("error", .jstr "Failed to get current page: boom")],
         [getPageRequest "u" "p"]))
    ∧ (getPageContent "u" (fun _ => .failure (.networkError "boom")) "p").1
        = .jobj [("error", .jstr "boom")]
    ∧ JValue.jstr "Failed to get current page: boom" ≠ JValue.jstr "boom" := by
  refine ⟨rfl, rfl, ?_⟩
  simp

/-- C5 amended: when the fetch preceding an update fails, the update is
aborted with no PUT request issued; when the fetched error value is truthy
the returned error is the String() coercion of that value behind the prefix
Failed to get current page (not the value itself); a falsy fetched error
value instead surfaces as the message of the caught TypeError. -/
theorem claim_C5_amended_fetch_failure_aborts (baseUrl pid c : String)
    (title : Option String) (e : AxiosError) :
    ((updatePageContent baseUrl (fun _ => .failure e) pid c title).2
        = [getPageRequest baseUrl pid])
    ∧ (jTruthy (errVal e) = true →
        (updatePageContent baseUrl (fun _ => .failure e) pid c title).1
          = .jobj [("error",
              .jstr ("Failed to get current page: " ++ jsStringVal (errVal e)))]) := by
  constructor
  · by_cases ht : jTruthy (errVal e) = true <;>
      simp [updatePageContent, getPageContent, errorPayload, isNull, jGet,
        jTruthyOpt, jsString, ht]
  · intro ht
    simp [updatePageContent, getPageContent, errorPayload, isNull, jGet,
      jTruthyOpt, jsString, ht]

/-- Witness for C5 amended at a network fault with message x. -/
theorem claim_C5_amended_fetch_failure_aborts_witness :
    ((updatePageContent "u" (fun _ => .failure (.networkError "x")) "p" "c" none).2
        = [getPageRequest "u" "p"])
    ∧ (updatePageContent "u" (fun _ => .failure (.networkError "x")) "p" "c" none).1
        = .jobj [("error",
            .jstr ("Failed to get current page: " ++ jsStringVal (errVal (.networkError "x"))))] :=
  ⟨(claim_C5_amended_fetch_failure_aborts "u" "p" "c" none (.networkError "x")).1,
   (claim_C5_amended_fetch_failure_aborts "u" "p" "c" none (.networkError "x")).2 (by decide)⟩

/-- C8: the get_page_content handler is a deterministic function of the
remote response for the requested page: two invocations with the same
pageId against remotes that answer that request identically produce
identical response envelopes, hence byte-identical text content. -/
theorem claim_C8_get_page_deterministic (baseUrl pid : String) (r1 r2 : Remote)
    (h : r1 (getPageRequest baseUrl pid) = r2 (getPageRequest baseUrl pid)) :
    handleCallTool baseUrl r1
        { name := "get_page_content", arguments := some [("pageId", .jstr pid)] }
      = handleCallTool baseUrl r2
        { name := "get_page_content", arguments := some [("pageId", .jstr pid)] } := by
  simp [handleCallTool, getPageContent, argGet, jsString, jsStringVal, h]

/-- Witness for C8 at pageId 42 against one and the same remote. -/
theorem claim_C8_get_page_deterministic_witness :
    handleCallTool "u" (fun _ => .success (.jstr "page"))
        { name := "get_page_content", arguments := some [("pageId", .jstr "42")] }
      = handleCallTool "u" (fun _ => .success (.jstr "page"))
        { name := "get_page_content", arguments := some [("pageId", .jstr "42")] } :=
  claim_C8_get_page_deterministic "u" "42" (fun _ => .success (.jstr "page"))
    (fun _ => .success (.jstr "page")) rfl

/-- C10: an update_page_content invocation whose title argument is the
empty string builds a PUT payload whose title is the fetched current title:
the empty string is falsy, so the dispatcher ternary already passes
undefined down, and the title fallback in the payload likewise selects the
fetched title, so the operation never replaces a title by the empty
string.  Shown at the dispatcher level and for updatePageContent applied to
an explicit empty title. -/
theorem claim_C10_empty_title_keeps_fetched_title (baseUrl : String) (ty tl sp : JValue)
    (n : Int) :
    ((handleCallTool baseUrl (fun _ => .success (mkPage ty tl sp n))
      { name := "update_page_content",
        arguments := some [("pageId", .jstr "p"), ("content", .jstr "c"),
                           ("title", .jstr "")] }).2
      = [getPageRequest baseUrl "p",
         putPageRequest baseUrl "p" (.jobj
           [("id", .jstr "p"), ("type", ty), ("title", tl), ("space", sp),
            ("body", storageBody "c"),
            ("version", .jobj [("number", .jnum (n + 1))])])])
    ∧ ∀ pid c : String,
        (updatePageContent baseUrl (fun _ => .success (mkPage ty tl sp n)) pid c (some "")).2
        = [getPageRequest baseUrl pid,
           putPageRequest baseUrl pid (.jobj
             [("id", .jstr pid), ("type", ty), ("title", tl), ("space", sp),
              ("body", storageBody c),
              ("version", .jobj [("number", .jnum (n + 1))])])] :=
  ⟨rfl, fun _ _ => rfl⟩

end ConfluenceMcp
